import Mathlib

/-!
Shallow embedding of the MCP calculator server's protocol dispatcher
(`src/main.rs`, `McpServer` and its `handle_*` methods).

Modelling conventions:
* `serde_json::Value` is embedded as the inductive `JVal`.  JSON numbers are
  modelled as rationals (`ℚ`): every number that can appear in a JSON document
  is finite, and every finite `f64` is a rational, so ordering, addition and
  multiplication on the values reachable from a request are faithfully
  represented (the claims under study never depend on `f64` rounding).
* Rust's `f64::sqrt` and the default `Display` rendering of `f64` are external
  library functions, not code of this repository; the dispatcher is therefore
  parameterised by `fsqrt : ℚ → ℚ` and `render : ℚ → String`, and theorems
  about concrete renderings take the relevant facts about `render` as
  hypotheses (e.g. that `5.0` renders as `"5"`, which is Rust's documented
  behaviour for integral doubles).
* `serde` deserialisation of the parameter structs is embedded as explicit
  parsers returning `Except String _`; a struct deserialises from a JSON
  object with the required fields of the required types (extra fields are
  ignored, as serde does by default).  The exact text of serde's error
  messages is external to the repository; the parsers return descriptive
  detail strings in their place (no claim depends on that text, only on the
  error code and the `"Invalid ..."` prefixes built in `main.rs`).
-/

/-- Embedding of `serde_json::Value`. -/
inductive JVal : Type where
  | null : JVal
  | bool (b : Bool) : JVal
  | num (q : ℚ) : JVal
  | str (s : String) : JVal
  | arr (elems : List JVal) : JVal
  | obj (entries : List (String × JVal)) : JVal

/-- Field lookup in a JSON object (first occurrence of the key). -/
def lookupKey : List (String × JVal) → String → Option JVal
  | [], _ => none
  | (k, v) :: rest, key => if k = key then some v else lookupKey rest key

/-- `struct JsonRpcRequest` from `src/main.rs`. -/
structure JsonRpcRequest where
  jsonrpc : String
  id : Option JVal
  method : String
  params : Option JVal

/-- `struct JsonRpcError` from `src/main.rs`. -/
structure JsonRpcError where
  code : Int
  message : String
  data : Option JVal

/-- `struct JsonRpcResponse` from `src/main.rs`. -/
structure JsonRpcResponse where
  jsonrpc : String
  id : Option JVal
  result : Option JVal
  error : Option JsonRpcError

/-- `struct Tool` from `src/main.rs` (serialised field name `inputSchema`). -/
structure Tool where
  name : String
  description : String
  input_schema : JVal

/-- serde serialisation of `Tool` (with the `inputSchema` rename). -/
def Tool.toJVal (t : Tool) : JVal :=
  .obj [("name", .str t.name), ("description", .str t.description),
        ("inputSchema", t.input_schema)]

/-- `struct AdditionParams { a: f64, b: f64 }`. -/
structure AdditionParams where
  a : ℚ
  b : ℚ

/-- `struct MultiplicationParams { a: f64, b: f64 }`. -/
structure MultiplicationParams where
  a : ℚ
  b : ℚ

/-- `struct SquareParams { number: f64 }`. -/
structure SquareParams where
  number : ℚ

/-- `struct SqrtParams { number: f64 }`. -/
structure SqrtParams where
  number : ℚ

/-- `struct ToolCallParams { name: String, arguments: Value }`. -/
structure ToolCallParams where
  name : String
  arguments : JVal

/-- serde deserialisation of `ToolCallParams` from a `Value`. -/
def parseToolCallParams : JVal → Except String ToolCallParams
  | .obj entries =>
      match lookupKey entries "name" with
      | some (.str n) =>
          match lookupKey entries "arguments" with
          | some v => .ok ⟨n, v⟩
          | none => .error "missing field arguments"
      | some _ => .error "invalid type for field name"
      | none => .error "missing field name"
  | _ => .error "invalid type: expected a map"

/-- serde deserialisation of `AdditionParams` from a `Value`. -/
def parseAdditionParams : JVal → Except String AdditionParams
  | .obj entries =>
      match lookupKey entries "a" with
      | some (.num a) =>
          match lookupKey entries "b" with
          | some (.num b) => .ok ⟨a, b⟩
          | some _ => .error "invalid type for field b"
          | none => .error "missing field b"
      | some _ => .error "invalid type for field a"
      | none => .error "missing field a"
  | _ => .error "invalid type: expected a map"

/-- serde deserialisation of `MultiplicationParams` from a `Value`. -/
def parseMultiplicationParams : JVal → Except String MultiplicationParams
  | .obj entries =>
      match lookupKey entries "a" with
      | some (.num a) =>
          match lookupKey entries "b" with
          | some (.num b) => .ok ⟨a, b⟩
          | some _ => .error "invalid type for field b"
          | none => .error "missing field b"
      | some _ => .error "invalid type for field a"
      | none => .error "missing field a"
  | _ => .error "invalid type: expected a map"

/-- serde deserialisation of `SquareParams` from a `Value`. -/
def parseSquareParams : JVal → Except String SquareParams
  | .obj entries =>
      match lookupKey entries "number" with
      | some (.num n) => .ok ⟨n⟩
      | some _ => .error "invalid type for field number"
      | none => .error "missing field number"
  | _ => .error "invalid type: expected a map"

/-- serde deserialisation of `SqrtParams` from a `Value`. -/
def parseSqrtParams : JVal → Except String SqrtParams
  | .obj entries =>
      match lookupKey entries "number" with
      | some (.num n) => .ok ⟨n⟩
      | some _ => .error "invalid type for field number"
      | none => .error "missing field number"
  | _ => .error "invalid type: expected a map"

/-- `struct McpServer` from `src/main.rs`. -/
structure McpServer where
  server_info : JVal
  tools : List Tool

/-- `McpServer::new` from `src/main.rs`: the static server info and the
four-entry tool catalog, with the input schemas transcribed verbatim. -/
def McpServer.new : McpServer :=
  { server_info := .obj [
      ("name", .str "Calculator MCP Server"),
      ("version", .str "1.0.0"),
      ("protocolVersion", .str "2024-11-05")],
    tools := [
      { name := "add",
        description := "Add two numbers together",
        input_schema := .obj [
          ("type", .str "object"),
          ("properties", .obj [
            ("a", .obj [("type", .str "number"),
                        ("description", .str "The first number to add")]),
            ("b", .obj [("type", .str "number"),
                        ("description", .str "The second number to add")])]),
          ("required", .arr [.str "a", .str "b"])] },
      { name := "multiply",
        description := "Multiply two numbers together",
        input_schema := .obj [
          ("type", .str "object"),
          ("properties", .obj [
            ("a", .obj [("type", .str "number"),
                        ("description", .str "The first number to multiply")]),
            ("b", .obj [("type", .str "number"),
                        ("description", .str "The second number to multiply")])]),
          ("required", .arr [.str "a", .str "b"])] },
      { name := "square",
        description := "Calculate the square of a number",
        input_schema := .obj [
          ("type", .str "object"),
          ("properties", .obj [
            ("number", .obj [("type", .str "number"),
                             ("description", .str "The number to square")])]),
          ("required", .arr [.str "number"])] },
      { name := "sqrt",
        description := "Calculate the square root of a number",
        input_schema := .obj [
          ("type", .str "object"),
          ("properties", .obj [
            ("number", .obj [("type", .str "number"),
                             ("description", .str "The number to find square root of (must be non-negative)")])]),
          ("required", .arr [.str "number"])] }] }

/-- `McpServer::handle_initialize`. -/
def McpServer.handle_initialize (self : McpServer) (id : Option JVal) : JsonRpcResponse :=
  { jsonrpc := "2.0",
    id := id,
    result := some (.obj [
      ("protocolVersion", .str "2024-11-05"),
      ("capabilities", .obj [("tools", .obj [])]),
      ("serverInfo", self.server_info)]),
    error := none }

/-- `McpServer::handle_tools_list`. -/
def McpServer.handle_tools_list (self : McpServer) (id : Option JVal) : JsonRpcResponse :=
  { jsonrpc := "2.0",
    id := id,
    result := some (.obj [("tools", .arr (self.tools.map Tool.toJVal))]),
    error := none }

/-- `McpServer::handle_addition` (`render` stands for Rust's `Display` of `f64`). -/
def McpServer.handle_addition (render : ℚ → String) (id : Option JVal)
    (arguments : JVal) : JsonRpcResponse :=
  match parseAdditionParams arguments with
  | .error e =>
      { jsonrpc := "2.0", id := id, result := none,
        error := some { code := -32602,
                        message := "Invalid addition parameters: " ++ e,
                        data := none } }
  | .ok params =>
      let result := params.a + params.b
      { jsonrpc := "2.0", id := id,
        result := some (.obj [("content", .arr [.obj [
          ("type", .str "text"),
          ("text", .str (render params.a ++ " + " ++ render params.b ++ " = " ++ render result))]])]),
        error := none }

/-- `McpServer::handle_multiplication`. -/
def McpServer.handle_multiplication (render : ℚ → String) (id : Option JVal)
    (arguments : JVal) : JsonRpcResponse :=
  match parseMultiplicationParams arguments with
  | .error e =>
      { jsonrpc := "2.0", id := id, result := none,
        error := some { code := -32602,
                        message := "Invalid multiplication parameters: " ++ e,
                        data := none } }
  | .ok params =>
      let result := params.a * params.b
      { jsonrpc := "2.0", id := id,
        result := some (.obj [("content", .arr [.obj [
          ("type", .str "text"),
          ("text", .str (render params.a ++ " × " ++ render params.b ++ " = " ++ render result))]])]),
        error := none }

/-- `McpServer::handle_square`. -/
def McpServer.handle_square (render : ℚ → String) (id : Option JVal)
    (arguments : JVal) : JsonRpcResponse :=
  match parseSquareParams arguments with
  | .error e =>
      { jsonrpc := "2.0", id := id, result := none,
        error := some { code := -32602,
                        message := "Invalid square parameters: " ++ e,
                        data := none } }
  | .ok params =>
      let result := params.number * params.number
      { jsonrpc := "2.0", id := id,
        result := some (.obj [("content", .arr [.obj [
          ("type", .str "text"),
          ("text", .str (render params.number ++ "² = " ++ render result))]])]),
        error := none }

/-- `McpServer::handle_sqrt` (`fsqrt` stands for Rust's `f64::sqrt`). -/
def McpServer.handle_sqrt (fsqrt : ℚ → ℚ) (render : ℚ → String) (id : Option JVal)
    (arguments : JVal) : JsonRpcResponse :=
  match parseSqrtParams arguments with
  | .error e =>
      { jsonrpc := "2.0", id := id, result := none,
        error := some { code := -32602,
                        message := "Invalid sqrt parameters: " ++ e,
                        data := none } }
  | .ok params =>
      if params.number < 0 then
        { jsonrpc := "2.0", id := id, result := none,
          error := some { code := -32602,
                          message := "Cannot calculate square root of negative number: " ++ render params.number,
                          data := none } }
      else
        let result := fsqrt params.number
        { jsonrpc := "2.0", id := id,
          result := some (.obj [("content", .arr [.obj [
            ("type", .str "text"),
            ("text", .str ("√" ++ render params.number ++ " = " ++ render result))]])]),
          error := none }

/-- `McpServer::handle_tools_call`. -/
def McpServer.handle_tools_call (fsqrt : ℚ → ℚ) (render : ℚ → String)
    (id : Option JVal) (params : Option JVal) : JsonRpcResponse :=
  match params with
  | none =>
      { jsonrpc := "2.0", id := id, result := none,
        error := some { code := -32602, message := "Invalid params", data := none } }
  | some p =>
      match parseToolCallParams p with
      | .error e =>
          { jsonrpc := "2.0", id := id, result := none,
            error := some { code := -32602,
                            message := "Invalid params: " ++ e,
                            data := none } }
      | .ok tool_call =>
          match tool_call.name with
          | "add" => McpServer.handle_addition render id tool_call.arguments
          | "multiply" => McpServer.handle_multiplication render id tool_call.arguments
          | "square" => McpServer.handle_square render id tool_call.arguments
          | "sqrt" => McpServer.handle_sqrt fsqrt render id tool_call.arguments
          | _ =>
              { jsonrpc := "2.0", id := id, result := none,
                error := some { code := -32602, message := "Unknown tool", data := none } }

/-- `McpServer::handle_request`: dispatch on the method string. -/
def McpServer.handle_request (self : McpServer) (fsqrt : ℚ → ℚ) (render : ℚ → String)
    (request : JsonRpcRequest) : JsonRpcResponse :=
  match request.method with
  | "initialize" => self.handle_initialize request.id
  | "tools/list" => self.handle_tools_list request.id
  | "tools/call" => McpServer.handle_tools_call fsqrt render request.id request.params
  | _ =>
      { jsonrpc := "2.0", id := request.id, result := none,
        error := some { code := -32601, message := "Method not found", data := none } }

/-- Modelled from the spec: Rust's default `Display` rendering of `f64` is an
external library function; the spec requires default decimal rendering with
integral values printed without a fractional part (`5 + 3 = 8`, not
`8.0000`).  This model agrees with Rust on the integral points used by the
concrete witnesses below; it is used only to instantiate the `render`
parameter there. -/
def renderModel (q : ℚ) : String :=
  if q.den = 1 then toString q.num else toString q

/-- Modelled from the spec: Rust's `f64::sqrt` is an external library
function; this executable stand-in agrees with it on the perfect squares used
by the concrete witnesses below and is used only to instantiate the `fsqrt`
parameter there. -/
def fsqrtModel (q : ℚ) : ℚ :=
  (Int.sqrt q.num : ℚ)

/-- A response carries exactly one of `result` and `error`. -/
def ExactlyOneOf (resp : JsonRpcResponse) : Prop :=
  (resp.result.isSome = true ∧ resp.error = none) ∨
  (resp.result = none ∧ resp.error.isSome = true)

/-- A value is shaped like the tool catalog's JSON-Schema objects: an object
whose `type` is the string `"object"` and which carries `properties` and
`required` fields. -/
def schemaShaped : JVal → Bool
  | .obj entries =>
      (match lookupKey entries "type" with
       | some (.str "object") => true
       | _ => false)
      && (lookupKey entries "properties").isSome
      && (lookupKey entries "required").isSome
  | _ => false

/-- A `tools/call` request invoking the `sqrt` tool on the number `n`. -/
def sqrtRequest (id : Option JVal) (n : ℚ) : JsonRpcRequest :=
  { jsonrpc := "2.0", id := id, method := "tools/call",
    params := some (.obj [("name", .str "sqrt"),
                          ("arguments", .obj [("number", .num n)])]) }

/-- The spec's concrete `add` scenario: `{jsonrpc:"2.0", id:1,
method:"tools/call", params:{name:"add", arguments:{a:5, b:3}}}`. -/
def addRequestFiveThree : JsonRpcRequest :=
  { jsonrpc := "2.0", id := some (.num 1), method := "tools/call",
    params := some (.obj [("name", .str "add"),
                          ("arguments", .obj [("a", .num 5), ("b", .num 3)])]) }

/-- A request with an unknown method, as in the spec's `"foo/bar"` example. -/
def reqFooBar : JsonRpcRequest :=
  { jsonrpc := "2.0", id := some (.num 1), method := "foo/bar", params := none }

/-- A `tools/list` request. -/
def reqToolsList : JsonRpcRequest :=
  { jsonrpc := "2.0", id := some (.num 1), method := "tools/list", params := none }

/-- An `initialize` request. -/
def reqInitialize : JsonRpcRequest :=
  { jsonrpc := "2.0", id := some (.num 1), method := "initialize", params := none }

/-- A `tools/call` request for the unknown tool `"divide"`. -/
def reqDivide : JsonRpcRequest :=
  { jsonrpc := "2.0", id := some (.num 1), method := "tools/call",
    params := some (.obj [("name", .str "divide"), ("arguments", .obj [])]) }

/-! ## Helper lemmas about the individual handlers -/

theorem handle_addition_id (render : ℚ → String) (id : Option JVal) (args : JVal) :
    (McpServer.handle_addition render id args).id = id := by
  unfold McpServer.handle_addition
  split <;> rfl

theorem handle_multiplication_id (render : ℚ → String) (id : Option JVal) (args : JVal) :
    (McpServer.handle_multiplication render id args).id = id := by
  unfold McpServer.handle_multiplication
  split <;> rfl

theorem handle_square_id (render : ℚ → String) (id : Option JVal) (args : JVal) :
    (McpServer.handle_square render id args).id = id := by
  unfold McpServer.handle_square
  split <;> rfl

theorem handle_sqrt_id (fsqrt : ℚ → ℚ) (render : ℚ → String) (id : Option JVal) (args : JVal) :
    (McpServer.handle_sqrt fsqrt render id args).id = id := by
  unfold McpServer.handle_sqrt
  split
  · rfl
  · split <;> rfl

theorem handle_tools_call_id (fsqrt : ℚ → ℚ) (render : ℚ → String)
    (id : Option JVal) (params : Option JVal) :
    (McpServer.handle_tools_call fsqrt render id params).id = id := by
  unfold McpServer.handle_tools_call
  split
  · rfl
  · split
    · rfl
    · split <;>
        simp [handle_addition_id, handle_multiplication_id, handle_square_id, handle_sqrt_id]

theorem handle_request_id (self : McpServer) (fsqrt : ℚ → ℚ) (render : ℚ → String)
    (request : JsonRpcRequest) :
    (self.handle_request fsqrt render request).id = request.id := by
  unfold McpServer.handle_request
  split <;>
    simp [McpServer.handle_initialize, McpServer.handle_tools_list, handle_tools_call_id]

theorem handle_addition_jsonrpc (render : ℚ → String) (id : Option JVal) (args : JVal) :
    (McpServer.handle_addition render id args).jsonrpc = "2.0" := by
  unfold McpServer.handle_addition
  split <;> rfl

theorem handle_multiplication_jsonrpc (render : ℚ → String) (id : Option JVal) (args : JVal) :
    (McpServer.handle_multiplication render id args).jsonrpc = "2.0" := by
  unfold McpServer.handle_multiplication
  split <;> rfl

theorem handle_square_jsonrpc (render : ℚ → String) (id : Option JVal) (args : JVal) :
    (McpServer.handle_square render id args).jsonrpc = "2.0" := by
  unfold McpServer.handle_square
  split <;> rfl

theorem handle_sqrt_jsonrpc (fsqrt : ℚ → ℚ) (render : ℚ → String) (id : Option JVal) (args : JVal) :
    (McpServer.handle_sqrt fsqrt render id args).jsonrpc = "2.0" := by
  unfold McpServer.handle_sqrt
  split
  · rfl
  · split <;> rfl

theorem handle_tools_call_jsonrpc (fsqrt : ℚ → ℚ) (render : ℚ → String)
    (id : Option JVal) (params : Option JVal) :
    (McpServer.handle_tools_call fsqrt render id params).jsonrpc = "2.0" := by
  unfold McpServer.handle_tools_call
  split
  · rfl
  · split
    · rfl
    · split <;>
        simp [handle_addition_jsonrpc, handle_multiplication_jsonrpc,
              handle_square_jsonrpc, handle_sqrt_jsonrpc]

theorem handle_request_jsonrpc (self : McpServer) (fsqrt : ℚ → ℚ) (render : ℚ → String)
    (request : JsonRpcRequest) :
    (self.handle_request fsqrt render request).jsonrpc = "2.0" := by
  unfold McpServer.handle_request
  split <;>
    simp [McpServer.handle_initialize, McpServer.handle_tools_list, handle_tools_call_jsonrpc]

theorem handle_addition_oneOf (render : ℚ → String) (id : Option JVal) (args : JVal) :
    ExactlyOneOf (McpServer.handle_addition render id args) := by
  unfold McpServer.handle_addition ExactlyOneOf
  split
  · right; exact ⟨rfl, rfl⟩
  · left; exact ⟨rfl, rfl⟩

theorem handle_multiplication_oneOf (render : ℚ → String) (id : Option JVal) (args : JVal) :
    ExactlyOneOf (McpServer.handle_multiplication render id args) := by
  unfold McpServer.handle_multiplication ExactlyOneOf
  split
  · right; exact ⟨rfl, rfl⟩
  · left; exact ⟨rfl, rfl⟩

theorem handle_square_oneOf (render : ℚ → String) (id : Option JVal) (args : JVal) :
    ExactlyOneOf (McpServer.handle_square render id args) := by
  unfold McpServer.handle_square ExactlyOneOf
  split
  · right; exact ⟨rfl, rfl⟩
  · left; exact ⟨rfl, rfl⟩

theorem handle_sqrt_oneOf (fsqrt : ℚ → ℚ) (render : ℚ → String) (id : Option JVal) (args : JVal) :
    ExactlyOneOf (McpServer.handle_sqrt fsqrt render id args) := by
  unfold McpServer.handle_sqrt ExactlyOneOf
  split
  · right; exact ⟨rfl, rfl⟩
  · split
    · right; exact ⟨rfl, rfl⟩
    · left; exact ⟨rfl, rfl⟩

theorem handle_tools_call_oneOf (fsqrt : ℚ → ℚ) (render : ℚ → String)
    (id : Option JVal) (params : Option JVal) :
    ExactlyOneOf (McpServer.handle_tools_call fsqrt render id params) := by
  unfold McpServer.handle_tools_call
  split
  · right; exact ⟨rfl, rfl⟩
  · split
    · right; exact ⟨rfl, rfl⟩
    · split
      · exact handle_addition_oneOf ..
      · exact handle_multiplication_oneOf ..
      · exact handle_square_oneOf ..
      · exact handle_sqrt_oneOf ..
      · right; exact ⟨rfl, rfl⟩

theorem handle_request_oneOf (self : McpServer) (fsqrt : ℚ → ℚ) (render : ℚ → String)
    (request : JsonRpcRequest) :
    ExactlyOneOf (self.handle_request fsqrt render request) := by
  unfold McpServer.handle_request
  split
  · left; exact ⟨rfl, rfl⟩
  · left; exact ⟨rfl, rfl⟩
  · exact handle_tools_call_oneOf ..
  · right; exact ⟨rfl, rfl⟩

/-! ## Claim theorems -/

/-- C1: for every JSON-RPC request, the response returned by the dispatcher
contains exactly one of the fields `result` and `error`: whenever `result` is
present `error` is absent, whenever `error` is present `result` is absent, and
one of the two is always present. -/
theorem result_error_mutually_exclusive (fsqrt : ℚ → ℚ) (render : ℚ → String)
    (request : JsonRpcRequest) :
    ExactlyOneOf (McpServer.new.handle_request fsqrt render request) :=
  handle_request_oneOf ..

/-- C3: the `id` value of the response equals the `id` value of the request,
unchanged and uninterpreted, on every dispatch branch; an absent request id
yields an absent response id. -/
theorem response_id_echoes_request_id (fsqrt : ℚ → ℚ) (render : ℚ → String)
    (request : JsonRpcRequest) :
    (McpServer.new.handle_request fsqrt render request).id = request.id :=
  handle_request_id ..

/-- C10: the dispatcher never inspects the request's `jsonrpc` version-string
field: any two requests identical except in the `jsonrpc` field receive
identical responses, and the response's `jsonrpc` field is the constant
`"2.0"` on every branch. -/
theorem jsonrpc_field_not_inspected (fsqrt : ℚ → ℚ) (render : ℚ → String)
    (r1 r2 : JsonRpcRequest) (hid : r1.id = r2.id) (hm : r1.method = r2.method)
    (hp : r1.params = r2.params) :
    McpServer.new.handle_request fsqrt render r1 = McpServer.new.handle_request fsqrt render r2 ∧
    (McpServer.new.handle_request fsqrt render r1).jsonrpc = "2.0" := by
  obtain ⟨j1, i1, m1, p1⟩ := r1
  obtain ⟨j2, i2, m2, p2⟩ := r2
  simp only at hid hm hp
  subst hid hm hp
  exact ⟨rfl, handle_request_jsonrpc ..⟩

/-- Witness for C10 at two concrete requests differing only in the `jsonrpc`
field. -/
theorem jsonrpc_field_not_inspected_witness :
    McpServer.new.handle_request fsqrtModel renderModel
        { jsonrpc := "2.0", id := some (.num 1), method := "initialize", params := none } =
      McpServer.new.handle_request fsqrtModel renderModel
        { jsonrpc := "1.0", id := some (.num 1), method := "initialize", params := none } ∧
    (McpServer.new.handle_request fsqrtModel renderModel
        { jsonrpc := "2.0", id := some (.num 1), method := "initialize", params := none }).jsonrpc = "2.0" :=
  jsonrpc_field_not_inspected fsqrtModel renderModel _ _ rfl rfl rfl

/-- C5: every request whose method string is not exactly `"initialize"`,
`"tools/list"` or `"tools/call"` receives a response with no result and an
error with code -32601 and message `"Method not found"`. -/
theorem unknown_method_yields_method_not_found (fsqrt : ℚ → ℚ) (render : ℚ → String)
    (request : JsonRpcRequest)
    (h : ¬(request.method = "initialize" ∨ request.method = "tools/list" ∨
           request.method = "tools/call")) :
    McpServer.new.handle_request fsqrt render request =
      { jsonrpc := "2.0", id := request.id, result := none,
        error := some { code := -32601, message := "Method not found", data := none } } := by
  unfold McpServer.handle_request
  split
  · exact absurd (Or.inl (by assumption)) h
  · exact absurd (Or.inr (Or.inl (by assumption))) h
  · exact absurd (Or.inr (Or.inr (by assumption))) h
  · rfl

/-- Witness for C5 at the concrete method `"foo/bar"`. -/
theorem unknown_method_yields_method_not_found_witness :
    McpServer.new.handle_request fsqrtModel renderModel reqFooBar =
      { jsonrpc := "2.0", id := some (.num 1), result := none,
        error := some { code := -32601, message := "Method not found", data := none } } :=
  unknown_method_yields_method_not_found fsqrtModel renderModel reqFooBar (by decide)

theorem handle_addition_err_code (render : ℚ → String) (id : Option JVal) (args : JVal)
    (e : JsonRpcError) (h : (McpServer.handle_addition render id args).error = some e) :
    e.code = -32602 := by
  unfold McpServer.handle_addition at h
  split at h
  · cases h; rfl
  · cases h

theorem handle_multiplication_err_code (render : ℚ → String) (id : Option JVal) (args : JVal)
    (e : JsonRpcError) (h : (McpServer.handle_multiplication render id args).error = some e) :
    e.code = -32602 := by
  unfold McpServer.handle_multiplication at h
  split at h
  · cases h; rfl
  · cases h

theorem handle_square_err_code (render : ℚ → String) (id : Option JVal) (args : JVal)
    (e : JsonRpcError) (h : (McpServer.handle_square render id args).error = some e) :
    e.code = -32602 := by
  unfold McpServer.handle_square at h
  split at h
  · cases h; rfl
  · cases h

theorem handle_sqrt_err_code (fsqrt : ℚ → ℚ) (render : ℚ → String) (id : Option JVal)
    (args : JVal) (e : JsonRpcError)
    (h : (McpServer.handle_sqrt fsqrt render id args).error = some e) :
    e.code = -32602 := by
  unfold McpServer.handle_sqrt at h
  split at h
  · cases h; rfl
  · split at h
    · cases h; rfl
    · cases h

theorem handle_tools_call_err_code (fsqrt : ℚ → ℚ) (render : ℚ → String)
    (id : Option JVal) (params : Option JVal) (e : JsonRpcError)
    (h : (McpServer.handle_tools_call fsqrt render id params).error = some e) :
    e.code = -32602 := by
  unfold McpServer.handle_tools_call at h
  split at h
  · cases h; rfl
  · split at h
    · cases h; rfl
    · split at h
      · exact handle_addition_err_code _ _ _ _ h
      · exact handle_multiplication_err_code _ _ _ _ h
      · exact handle_square_err_code _ _ _ _ h
      · exact handle_sqrt_err_code _ _ _ _ _ h
      · cases h; rfl

/-- C4: every error the dispatcher produces has code -32601 or -32602; the
code is -32601 exactly when the method string is not one of `initialize`,
`tools/list`, `tools/call`, and every failure inside `tools/call` yields
-32602. -/
theorem error_codes_characterised (fsqrt : ℚ → ℚ) (render : ℚ → String)
    (request : JsonRpcRequest) (e : JsonRpcError)
    (h : (McpServer.new.handle_request fsqrt render request).error = some e) :
    (e.code = -32601 ∨ e.code = -32602) ∧
    (e.code = -32601 ↔ ¬(request.method = "initialize" ∨ request.method = "tools/list" ∨
                         request.method = "tools/call")) := by
  unfold McpServer.handle_request at h
  split at h
  · exact absurd h (by simp [McpServer.handle_initialize])
  · exact absurd h (by simp [McpServer.handle_tools_list])
  · have hc := handle_tools_call_err_code _ _ _ _ _ h
    refine ⟨Or.inr hc, ?_, ?_⟩
    · intro h01
      rw [hc] at h01
      exact absurd h01 (by norm_num)
    · intro hNot
      exact absurd (Or.inr (Or.inr (by assumption))) hNot
  · cases h
    refine ⟨Or.inl rfl, fun _ => ?_, fun _ => rfl⟩
    rintro (hm | hm | hm) <;> simp_all

/-- Witness for C4 at the concrete unknown method `"foo/bar"`. -/
theorem error_codes_characterised_witness :
    (((-32601 : Int) = -32601 ∨ (-32601 : Int) = -32602) ∧
      ((-32601 : Int) = -32601 ↔ ¬(reqFooBar.method = "initialize" ∨
        reqFooBar.method = "tools/list" ∨ reqFooBar.method = "tools/call"))) :=
  error_codes_characterised fsqrtModel renderModel reqFooBar
    { code := -32601, message := "Method not found", data := none } rfl

/-- C6: every `tools/list` request (params ignored) receives a response with
no error whose result is `{tools: [...]}` containing exactly 4 tool
descriptors in catalog order, named `add`, `multiply`, `square`, `sqrt`, each
carrying a name, a description and a JSON-Schema-shaped `inputSchema`. -/
theorem tools_list_returns_catalog (fsqrt : ℚ → ℚ) (render : ℚ → String)
    (request : JsonRpcRequest) (h : request.method = "tools/list") :
    (McpServer.new.handle_request fsqrt render request).error = none ∧
    (McpServer.new.handle_request fsqrt render request).result =
      some (.obj [("tools", .arr (McpServer.new.tools.map Tool.toJVal))]) ∧
    McpServer.new.tools.length = 4 ∧
    McpServer.new.tools.map Tool.name = ["add", "multiply", "square", "sqrt"] ∧
    ∀ t ∈ McpServer.new.tools,
      t.name ≠ "" ∧ t.description ≠ "" ∧ schemaShaped t.input_schema = true := by
  obtain ⟨j, i, m, p⟩ := request
  simp only at h
  subst h
  exact ⟨rfl, rfl, rfl, rfl, by decide⟩

/-- Witness for C6 at a concrete `tools/list` request. -/
theorem tools_list_returns_catalog_witness :
    (McpServer.new.handle_request fsqrtModel renderModel reqToolsList).error = none ∧
    (McpServer.new.handle_request fsqrtModel renderModel reqToolsList).result =
      some (.obj [("tools", .arr (McpServer.new.tools.map Tool.toJVal))]) ∧
    McpServer.new.tools.length = 4 ∧
    McpServer.new.tools.map Tool.name = ["add", "multiply", "square", "sqrt"] ∧
    ∀ t ∈ McpServer.new.tools,
      t.name ≠ "" ∧ t.description ≠ "" ∧ schemaShaped t.input_schema = true :=
  tools_list_returns_catalog fsqrtModel renderModel reqToolsList rfl

/-- C7: every `initialize` request, regardless of the params value, receives
a response with no error whose result is `{protocolVersion: "2024-11-05",
capabilities: {tools: {}}, serverInfo: S}` with `S` the non-null static
server-info record. -/
theorem initialize_returns_static_info (fsqrt : ℚ → ℚ) (render : ℚ → String)
    (request : JsonRpcRequest) (h : request.method = "initialize") :
    (McpServer.new.handle_request fsqrt render request).error = none ∧
    (McpServer.new.handle_request fsqrt render request).result =
      some (.obj [
        ("protocolVersion", .str "2024-11-05"),
        ("capabilities", .obj [("tools", .obj [])]),
        ("serverInfo", McpServer.new.server_info)]) ∧
    McpServer.new.server_info ≠ JVal.null := by
  obtain ⟨j, i, m, p⟩ := request
  simp only at h
  subst h
  refine ⟨rfl, rfl, fun hh => ?_⟩
  simp [McpServer.new] at hh

/-- Witness for C7 at a concrete `initialize` request. -/
theorem initialize_returns_static_info_witness :
    (McpServer.new.handle_request fsqrtModel renderModel reqInitialize).error = none ∧
    (McpServer.new.handle_request fsqrtModel renderModel reqInitialize).result =
      some (.obj [
        ("protocolVersion", .str "2024-11-05"),
        ("capabilities", .obj [("tools", .obj [])]),
        ("serverInfo", McpServer.new.server_info)]) ∧
    McpServer.new.server_info ≠ JVal.null :=
  initialize_returns_static_info fsqrtModel renderModel reqInitialize rfl

theorem handle_sqrt_number_spec (fsqrt : ℚ → ℚ) (render : ℚ → String)
    (id : Option JVal) (n : ℚ) :
    (0 ≤ n → McpServer.handle_sqrt fsqrt render id (.obj [("number", .num n)]) =
      { jsonrpc := "2.0", id := id,
        result := some (.obj [("content", .arr [.obj [("type", .str "text"),
          ("text", .str ("√" ++ render n ++ " = " ++ render (fsqrt n)))]])]),
        error := none }) ∧
    (n < 0 → McpServer.handle_sqrt fsqrt render id (.obj [("number", .num n)]) =
      { jsonrpc := "2.0", id := id, result := none,
        error := some { code := -32602,
                        message := "Cannot calculate square root of negative number: " ++ render n,
                        data := none } }) := by
  have hred : McpServer.handle_sqrt fsqrt render id (.obj [("number", .num n)]) =
      if n < 0 then
        { jsonrpc := "2.0", id := id, result := none,
          error := some { code := -32602,
                          message := "Cannot calculate square root of negative number: " ++ render n,
                          data := none } }
      else
        { jsonrpc := "2.0", id := id,
          result := some (.obj [("content", .arr [.obj [("type", .str "text"),
            ("text", .str ("√" ++ render n ++ " = " ++ render (fsqrt n)))]])]),
          error := none } := rfl
  constructor <;> intro h0
  · rw [hred, if_neg (not_lt.mpr h0)]
  · rw [hred, if_pos h0]

/-- C2: a `tools/call` request for the `sqrt` tool with arguments
`{number: n}` yields, for `n ≥ 0`, no error and the result text
`"√{n} = {sqrt(n)}"`, and, for `n < 0`, no result and an error with code
-32602 whose message is `"Cannot calculate square root of negative number:
{n}"` (which contains the rendering of `n`). -/
theorem sqrt_tool_spec (fsqrt : ℚ → ℚ) (render : ℚ → String)
    (id : Option JVal) (n : ℚ) :
    (0 ≤ n →
      (McpServer.new.handle_request fsqrt render (sqrtRequest id n)).error = none ∧
      (McpServer.new.handle_request fsqrt render (sqrtRequest id n)).result =
        some (.obj [("content", .arr [.obj [("type", .str "text"),
          ("text", .str ("√" ++ render n ++ " = " ++ render (fsqrt n)))]])])) ∧
    (n < 0 →
      (McpServer.new.handle_request fsqrt render (sqrtRequest id n)).result = none ∧
      (McpServer.new.handle_request fsqrt render (sqrtRequest id n)).error =
        some { code := -32602,
               message := "Cannot calculate square root of negative number: " ++ render n,
               data := none }) := by
  have hred : McpServer.new.handle_request fsqrt render (sqrtRequest id n) =
      McpServer.handle_sqrt fsqrt render id (.obj [("number", .num n)]) := rfl
  constructor <;> intro h0
  · rw [hred, (handle_sqrt_number_spec fsqrt render id n).1 h0]
    exact ⟨rfl, rfl⟩
  · rw [hred, (handle_sqrt_number_spec fsqrt render id n).2 h0]
    exact ⟨rfl, rfl⟩

/-- Witness for C2 at the concrete inputs `n = 4` and `n = -4`. -/
theorem sqrt_tool_spec_witness :
    (McpServer.new.handle_request fsqrtModel renderModel
      (sqrtRequest (some (.num 1)) 4)).error = none ∧
    (McpServer.new.handle_request fsqrtModel renderModel
      (sqrtRequest (some (.num 1)) (-4))).result = none :=
  ⟨((sqrt_tool_spec fsqrtModel renderModel (some (.num 1)) 4).1 (by norm_num)).1,
   ((sqrt_tool_spec fsqrtModel renderModel (some (.num 1)) (-4)).2 (by norm_num)).1⟩

/-- C8: the spec's concrete scenario: calling `add` with `{a:5, b:3}` and
`id:1` returns exactly `{jsonrpc:"2.0", id:1, result:{content:[{type:"text",
text:"5 + 3 = 8"}]}}` with no error field; the hypotheses record that Rust's
default rendering prints the integral doubles 5, 3 and 8 without a
fractional part. -/
theorem add_five_three_concrete (fsqrt : ℚ → ℚ) (render : ℚ → String)
    (h5 : render 5 = "5") (h3 : render 3 = "3") (h8 : render 8 = "8") :
    McpServer.new.handle_request fsqrt render addRequestFiveThree =
      { jsonrpc := "2.0", id := some (.num 1),
        result := some (.obj [("content", .arr [.obj [("type", .str "text"),
          ("text", .str "5 + 3 = 8")]])]),
        error := none } := by
  have hred : McpServer.new.handle_request fsqrt render addRequestFiveThree =
      { jsonrpc := "2.0", id := some (.num 1),
        result := some (.obj [("content", .arr [.obj [("type", .str "text"),
          ("text", .str (render 5 ++ " + " ++ render 3 ++ " = " ++ render (5 + 3)))]])]),
        error := none } := rfl
  rw [hred, show (5 : ℚ) + 3 = 8 by norm_num, h5, h3, h8]
  rfl

/-- Witness for C8: the rendering model satisfies the three rendering
hypotheses, so the concrete response follows. -/
theorem add_five_three_concrete_witness :
    McpServer.new.handle_request fsqrtModel renderModel addRequestFiveThree =
      { jsonrpc := "2.0", id := some (.num 1),
        result := some (.obj [("content", .arr [.obj [("type", .str "text"),
          ("text", .str "5 + 3 = 8")]])]),
        error := none } :=
  add_five_three_concrete fsqrtModel renderModel (by decide) (by decide) (by decide)

theorem handle_tools_call_unknown_tool (fsqrt : ℚ → ℚ) (render : ℚ → String)
    (id : Option JVal) (p : JVal) (tc : ToolCallParams)
    (hparse : parseToolCallParams p = .ok tc)
    (hname : ¬(tc.name = "add" ∨ tc.name = "multiply" ∨ tc.name = "square" ∨
               tc.name = "sqrt")) :
    McpServer.handle_tools_call fsqrt render id (some p) =
      { jsonrpc := "2.0", id := id, result := none,
        error := some { code := -32602, message := "Unknown tool", data := none } } := by
  simp only [McpServer.handle_tools_call, hparse]
  split
  · exact absurd (Or.inl (by assumption)) hname
  · exact absurd (Or.inr (Or.inl (by assumption))) hname
  · exact absurd (Or.inr (Or.inr (Or.inl (by assumption)))) hname
  · exact absurd (Or.inr (Or.inr (Or.inr (by assumption)))) hname
  · rfl

/-- C9: a `tools/call` request whose params parse as `{name, arguments}` but
whose name is not one of `add`, `multiply`, `square`, `sqrt` receives a
response with no result and an error with code -32602 whose message is
`"Unknown tool"` (and hence contains it). -/
theorem unknown_tool_yields_invalid_params (fsqrt : ℚ → ℚ) (render : ℚ → String)
    (request : JsonRpcRequest) (p : JVal) (tc : ToolCallParams)
    (hm : request.method = "tools/call") (hp : request.params = some p)
    (hparse : parseToolCallParams p = .ok tc)
    (hname : ¬(tc.name = "add" ∨ tc.name = "multiply" ∨ tc.name = "square" ∨
               tc.name = "sqrt")) :
    (McpServer.new.handle_request fsqrt render request).result = none ∧
    (McpServer.new.handle_request fsqrt render request).error =
      some { code := -32602, message := "Unknown tool", data := none } := by
  obtain ⟨j, i, m, pr⟩ := request
  simp only at hm hp
  subst hm hp
  have hred : McpServer.new.handle_request fsqrt render ⟨j, i, "tools/call", some p⟩ =
      McpServer.handle_tools_call fsqrt render i (some p) := rfl
  rw [hred, handle_tools_call_unknown_tool fsqrt render i p tc hparse hname]
  exact ⟨rfl, rfl⟩

/-- Witness for C9 at the spec's concrete `"divide"` example. -/
theorem unknown_tool_yields_invalid_params_witness :
    (McpServer.new.handle_request fsqrtModel renderModel reqDivide).result = none ∧
    (McpServer.new.handle_request fsqrtModel renderModel reqDivide).error =
      some { code := -32602, message := "Unknown tool", data := none } :=
  unknown_tool_yields_invalid_params fsqrtModel renderModel reqDivide
    (.obj [("name", .str "divide"), ("arguments", .obj [])])
    ⟨"divide", .obj []⟩ rfl rfl rfl (by decide)
